import Mathlib

/-!
A shallow embedding of `verifier.py` (the openelections CSV verifier) and
proofs about its rule-dispatch and validation engine.

Conventions of the embedding:
* Python strings are Lean `String`s; character-level operations work on
  `String.data : List Char`.  All inputs of interest are ASCII, and the
  character primitives below model Python's behaviour on ASCII text.
* `print` calls are modelled by accumulating `Finding` values in emission
  order; an uncaught Python exception is modelled by `Option PyExc`.
* The filesystem is out of scope (the spec treats file existence and CSV
  tokenization as external collaborators), so `pathSanityCheck` is assumed
  to have succeeded and a file is its name, its header list and its rows.
-/

namespace OpenElections

/-- ASCII letter test: the regular-expression character class `[A-Za-z]`. -/
def isAsciiAlpha (c : Char) : Bool :=
  ('A' ≤ c && c ≤ 'Z') || ('a' ≤ c && c ≤ 'z')

/-- ASCII uppercase letter test. -/
def isAsciiUpper (c : Char) : Bool := 'A' ≤ c && c ≤ 'Z'

/-- ASCII lowercase letter test. -/
def isAsciiLower (c : Char) : Bool := 'a' ≤ c && c ≤ 'z'

/-- ASCII lowering of one character, as Python `str.lower` acts on ASCII. -/
def toLowerAscii (c : Char) : Char :=
  if isAsciiUpper c then Char.ofNat (c.toNat + 32) else c

/-- ASCII raising of one character, as Python `str.upper` acts on ASCII. -/
def toUpperAscii (c : Char) : Char :=
  if isAsciiLower c then Char.ofNat (c.toNat - 32) else c

/-- Python `str.lower` on an ASCII string. -/
def pyLower (s : String) : String := ⟨s.data.map toLowerAscii⟩

/-- Worker for `pyTitle`: the boolean records whether the previous character
was a letter (Python: whether we are inside a word). -/
def pyTitleAux : Bool → List Char → List Char
  | _, [] => []
  | prev, c :: cs =>
    if isAsciiAlpha c then
      (if prev then toLowerAscii c else toUpperAscii c) :: pyTitleAux true cs
    else
      c :: pyTitleAux false cs

/-- Python `str.title` on an ASCII string: the first letter of every
maximal letter run is uppercased, the rest lowercased. -/
def pyTitle (s : String) : String := ⟨pyTitleAux false s.data⟩

/-- Python `s.replace("_", " ")`. -/
def replaceUnderscores (s : String) : String :=
  ⟨s.data.map (fun c => if c = '_' then ' ' else c)⟩

/-- Python `s.split("__")` at the character level: left-to-right,
non-overlapping occurrences of the two-character delimiter. -/
def splitOnUU (acc : List Char) : List Char → List (List Char)
  | [] => [acc.reverse]
  | '_' :: '_' :: cs => acc.reverse :: splitOnUU [] cs
  | c :: cs => splitOnUU (c :: acc) cs

/-- Python `filename.split("__")`. -/
def pySplitUU (s : String) : List String :=
  (splitOnUU [] s.data).map (fun l => ⟨l⟩)

/-- ASCII digit test. -/
def isAsciiDigit (c : Char) : Bool := '0' ≤ c && c ≤ '9'

/-- Python whitespace stripped by `int(str)`. -/
def isPySpace (c : Char) : Bool :=
  c = ' ' || c = '\t' || c = '\n' || c = '\r' || c = '\x0b' || c = '\x0c'

/-- After an accepted digit: Python `int` allows single underscores strictly
between digits. -/
def pyDigitsTail : List Char → Bool
  | [] => true
  | '_' :: c :: cs => isAsciiDigit c && pyDigitsTail cs
  | c :: cs => isAsciiDigit c && pyDigitsTail cs

/-- Nonempty digit string with optional internal underscores. -/
def pyDigits : List Char → Bool
  | [] => false
  | c :: cs => isAsciiDigit c && pyDigitsTail cs

/-- Models Python `int(s)` succeeding on an ASCII string: surrounding
whitespace stripped, optional sign, then digits (underscores permitted
between digits).  `Verifier.verifyInteger` returns exactly this. -/
def verifyInteger (s : String) : Bool :=
  let t := ((s.data.dropWhile isPySpace).reverse.dropWhile isPySpace).reverse
  match t with
  | '+' :: rest => pyDigits rest
  | '-' :: rest => pyDigits rest
  | rest => pyDigits rest

/-- Contiguous-sublist test on character lists. -/
def isSegmentOf (pat : List Char) : List Char → Bool
  | [] => pat.isEmpty
  | c :: cs => pat.isPrefixOf (c :: cs) || isSegmentOf pat cs

/-- Python substring containment `pat in s` (case-sensitive, contiguous). -/
def substrIn (pat s : String) : Bool := isSegmentOf pat.data s.data

/-- One CSV record with the required columns (the optional `notes` column is
never read by any check). -/
structure Row where
  county : String
  precinct : String
  office : String
  district : String
  party : String
  candidate : String
  votes : String
deriving DecidableEq

/-- One emitted line of advisory output.  Each constructor corresponds to one
`print` site of the source, carrying the values interpolated into the
message (`invalidOffice` is the message at verifier.py line 152, which is
unreachable: see `verifyOffice`). -/
inductive Finding where
  | invalidColumns (cols : List String)
  | missingColumns (cols : List String)
  | countyMismatch (row : Row)
  | countyTitleCase (row : Row)
  | invalidOffice (office : String) (row : Row)
  | requiresDistrict (office : String) (row : Row)
  | districtNotInteger (row : Row)
  | misspelledPseudocandidate (candidate : String) (row : Row)
  | partyMissing (row : Row)
  | primaryPartyMissing (row : Row)
  | initError (msg : String)
deriving DecidableEq

/-- An uncaught Python exception. -/
inductive PyExc where
  | attributeError
  | valueError
deriving DecidableEq

/-- The five concrete `Verifier` subclasses. -/
inductive Variant where
  | generalVerifier
  | generalPrecinctVerifier
  | primaryVerifier
  | primaryPrecinctVerifier
  | specialPrecinctVerifier
deriving DecidableEq

/-- `Verifier.validColumns`.  The source's frozensets are modelled as lists;
only membership is ever used, so the order is immaterial. -/
def validColumns : List String :=
  ["county", "precinct", "office", "district", "party", "candidate", "votes", "notes"]

/-- `Verifier.requiredColumns`. -/
def requiredColumns : List String :=
  ["county", "precinct", "office", "district", "party", "candidate", "votes"]

/-- `Verifier.validOffices`. -/
def validOffices : List String :=
  ["President", "U.S. Senate", "U.S. House", "Governor", "State Senate",
   "State House", "Attorney General", "Secretary of State", "State Treasurer"]

/-- `Verifier.officesWithDistricts`. -/
def officesWithDistricts : List String :=
  ["U.S. House", "State Senate", "State House"]

/-- `Verifier.pseudocandidates`. -/
def pseudocandidates : List String :=
  ["Write-in", "Under Votes", "Over Votes", "Total"]

/-- `Verifier.normalizedPseudocandidates`.  The set iteration order in the
fuzzy loop is unobservable (every iteration emits the same finding and
breaks), so a fixed list order is a faithful model. -/
def normalizedPseudocandidates : List String :=
  ["writein", "undervotes", "overvotes", "total"]

/-- `Verifier.__new__`: ordered, case-sensitive, first-match substring
dispatch on the filename.  `none` models the fall-through in which
`__new__` implicitly returns Python `None`. -/
def selectVariant (filename : String) : Option Variant :=
  if substrIn "general" filename then
    if substrIn "precinct" filename then some .generalPrecinctVerifier
    else some .generalVerifier
  else if substrIn "primary" filename then
    if substrIn "precinct" filename then some .primaryPrecinctVerifier
    else some .primaryVerifier
  else if substrIn "special" filename && substrIn "precinct" filename then
    some .specialPrecinctVerifier
  else none

/-- The result of `Verifier.deriveStateCountyFromFilename`: the source
returns a 2-tuple when the split has exactly 5 components and the *single
string* `""` otherwise, so the result type is a sum. -/
inductive DeriveResult where
  | tuple (state county : String)
  | pystr (s : String)
deriving DecidableEq

/-- `Verifier.deriveStateCountyFromFilename`. -/
def deriveStateCountyFromFilename (filename : String) : DeriveResult :=
  if (pySplitUU filename).length = 5 then
    .tuple ((pySplitUU filename).getD 1 "")
      (pyTitle (replaceUnderscores ((pySplitUU filename).getD 3 "")))
  else
    .pystr ""

/-- The per-file context stored on the verifier by `__init__`. -/
structure FileContext where
  filenameState : String
  filenameCounty : String
deriving DecidableEq

deriving instance DecidableEq for Except

/-- `Verifier.__init__` after `pathSanityCheck` succeeded: the tuple
assignment `self.filenameState, self.filenameCounty = ...` unpacks the
derive result.  Unpacking a string iterates its characters, so it succeeds
only on a 2-character string; the `""` returned for a malformed filename
raises ValueError, which `__init__` catches, prints, and leaves
`self.ready = False` — modelled by `.error` with the printed message. -/
def initVerifier (filename : String) : Except String FileContext :=
  match deriveStateCountyFromFilename filename with
  | .tuple st co => .ok ⟨st, co⟩
  | .pystr s =>
    match s.data with
    | [a, b] => .ok ⟨⟨[a]⟩, ⟨[b]⟩⟩
    | [] => .error "not enough values to unpack (expected 2, got 0)"
    | [_] => .error "not enough values to unpack (expected 2, got 1)"
    | _ => .error "too many values to unpack (expected 2)"

/-- `Verifier.verifyCounty`: the filename-mismatch check, then the
title-case lint; both can fire on one row. -/
def verifyCounty (ctx : FileContext) (row : Row) : List Finding :=
  let normalisedCounty := pyTitle row.county
  (if normalisedCounty = ctx.filenameCounty then [] else [.countyMismatch row]) ++
    (if row.county = normalisedCounty then [] else [.countyTitleCase row])

/-- `Verifier.verifyOffice`.  Source line 152 reads
`self.self.printError("Invalid office: ...", row)`: a `Verifier` has no
attribute `self`, so evaluating `self.self` raises AttributeError before
anything is formatted or printed.  An invalid office therefore emits no
finding and raises instead; `Finding.invalidOffice` is never produced. -/
def verifyOffice (row : Row) : List Finding × Option PyExc :=
  if row.office ∈ validOffices then ([], none)
  else ([], some .attributeError)

/-- `Verifier.verifyDistrict`. -/
def verifyDistrict (ctx : FileContext) (row : Row) : List Finding :=
  if row.office ∈ officesWithDistricts then
    if row.district = "" then [.requiresDistrict row.office row]
    else if pyLower row.district = "x" then
      if ctx.filenameState = "ms" then []
      else [.districtNotInteger row]
    else if verifyInteger row.district then []
    else [.districtNotInteger row]
  else []

/-- The normalization of `Verifier.verifyCandidate`:
`re.sub('[^A-Za-z]+', '', candidate).lower()`. -/
def normalizeCandidate (s : String) : String :=
  ⟨(s.data.filter isAsciiAlpha).map toLowerAscii⟩

/-- Length of the longest common prefix of two character lists. -/
def commonPrefixLen : List Char → List Char → Nat
  | a :: as, b :: bs => if a = b then commonPrefixLen as bs + 1 else 0
  | _, _ => 0

/-- Models `SequenceMatcher(None, a, b).find_longest_match(...).size` for
short lowercase strings (no junk heuristics apply below 200 characters):
the length of the longest common contiguous substring, computed as the
maximum over all pairs of suffixes of their common-prefix length. -/
def lcsubLen (a b : List Char) : Nat :=
  ((a.tails.map (fun ta => b.tails.map (fun tb => commonPrefixLen ta tb))).flatten).foldr max 0

/-- `Verifier.verifyCandidate`: exact reserved literals pass silently;
a normalized exact match or a fuzzy match (longest common contiguous
substring longer than 4) emits one misspelled-pseudocandidate finding.
`find?` models the `for ... break` loop over the reserved tokens. -/
def verifyCandidate (row : Row) : List Finding :=
  let normalizedCandidate := normalizeCandidate row.candidate
  if row.candidate ∈ pseudocandidates then []
  else if normalizedCandidate ∈ normalizedPseudocandidates then
    [.misspelledPseudocandidate row.candidate row]
  else
    match normalizedPseudocandidates.find?
        (fun npc => decide (4 < lcsubLen normalizedCandidate.data npc.data)) with
    | some _ => [.misspelledPseudocandidate row.candidate row]
    | none => []

/-- The party check, dispatched on the variant.  Only
`PrimaryPrecinctVerifier` overrides `verifyParty` in the source; every
other subclass (including `PrimaryVerifier`, whose body is `pass`)
inherits the default rule. -/
def verifyParty : Variant → Row → List Finding
  | .primaryPrecinctVerifier, row =>
    if row.party = "" then [.primaryPartyMissing row] else []
  | _, row =>
    if row.candidate ∈ pseudocandidates then []
    else if row.party = "" then [.partyMissing row]
    else []

/-- One iteration of the row loop in `Verifier.parseFileAtPath`: the five
checks in source order; an exception aborts the remaining checks with the
findings already printed. -/
def verifyRow (v : Variant) (ctx : FileContext) (row : Row) :
    List Finding × Option PyExc :=
  let county := verifyCounty ctx row
  match verifyOffice row with
  | (office, some e) => (county ++ office, some e)
  | (office, none) =>
    (county ++ office ++ verifyDistrict ctx row ++ verifyCandidate row ++
      verifyParty v row, none)

/-- The row loop of `Verifier.parseFileAtPath`: rows in order, stopping at
the first uncaught exception. -/
def verifyRows (v : Variant) (ctx : FileContext) : List Row → List Finding × Option PyExc
  | [] => ([], none)
  | r :: rs =>
    match verifyRow v ctx r with
    | (f, some e) => (f, some e)
    | (f, none) =>
      let rest := verifyRows v ctx rs
      (f ++ rest.1, rest.2)

/-- `set(columns) - Verifier.validColumns`, as the list of offending
declared columns. -/
def invalidColumnsOf (columns : List String) : List String :=
  columns.filter (fun c => decide (c ∉ validColumns))

/-- `Verifier.requiredColumns - set(columns)`, as the list of missing
required columns. -/
def missingColumnsOf (columns : List String) : List String :=
  requiredColumns.filter (fun c => decide (c ∉ columns))

/-- `Verifier.verifyColumns`: warn on invalid columns, report missing
columns and return `false` (blocking row verification) when any required
column is absent. -/
def verifyColumns (columns : List String) : List Finding × Bool :=
  ((if invalidColumnsOf columns = [] then []
    else [Finding.invalidColumns (invalidColumnsOf columns)]) ++
   (if missingColumnsOf columns = [] then []
    else [Finding.missingColumns (missingColumnsOf columns)]),
   decide (missingColumnsOf columns = []))

/-- `Verifier.parseFileAtPath`: the column gate, then the row loop only
when the gate passes. -/
def parseFileAtPath (v : Variant) (ctx : FileContext) (columns : List String)
    (rows : List Row) : List Finding × Option PyExc :=
  let gate := verifyColumns columns
  if gate.2 then
    let rest := verifyRows v ctx rows
    (gate.1 ++ rest.1, rest.2)
  else (gate.1, none)

/-- One iteration of the path loop in `main`, for an existing `.csv` file:
`Verifier(path)` dispatches via `selectVariant`; when no subclass matches,
`__new__` returns `None`, `__init__` never runs, and `verifier.ready`
raises AttributeError.  Otherwise `__init__` runs; if it caught an
exception only its error line is printed (`ready` stayed `False`).  A ready
verifier is verified unless the filename contains "matrix". -/
def mainStep (filename : String) (columns : List String) (rows : List Row) :
    List Finding × Option PyExc :=
  match selectVariant filename with
  | none => ([], some .attributeError)
  | some v =>
    match initVerifier filename with
    | .error msg => ([Finding.initError msg], none)
    | .ok ctx =>
      if substrIn "matrix" filename then ([], none)
      else parseFileAtPath v ctx columns rows

/-!
## Theorems about the claims
-/

/-- Claim C1.  The claim says an unrecognized office emits an "invalid
office" finding through the Error Reporter, never raises, and never stops
the per-row scan.  The source (line 152) instead evaluates `self.self`,
which raises AttributeError before anything is printed: on a row whose
office is "Mayor" the scan aborts with an exception and emits no finding
at all. -/
theorem c1_invalid_office_raises_eval :
    verifyRow Variant.generalVerifier ⟨"or", "Baker"⟩
      ⟨"Baker", "1", "Mayor", "12", "DEM", "John Smith", "10"⟩ =
      ([], some PyExc.attributeError) := by decide

/-- Claim C2 counterexample.  For the 4-component filename
`20161108__or__general__baker.csv`, metadata extraction returns the single
string `""` (not an empty state/county pair), `__init__`'s tuple
assignment raises a caught ValueError, and the whole verification is
skipped: only the init error line is printed, and a row that violates
several rules produces no finding — verification does not proceed. -/
theorem c2_metadata_counterexample :
    deriveStateCountyFromFilename "20161108__or__general__baker.csv" =
      DeriveResult.pystr "" ∧
    initVerifier "20161108__or__general__baker.csv" =
      Except.error "not enough values to unpack (expected 2, got 0)" ∧
    mainStep "20161108__or__general__baker.csv"
      ["county", "precinct", "office", "district", "party", "candidate", "votes"]
      [⟨"Nowhere", "1", "President", "", "", "bogus candidate", "10"⟩] =
      ([Finding.initError "not enough values to unpack (expected 2, got 0)"], none) := by
  decide

/-- Claim C2, amended.  For every filename whose double-underscore split
does not have exactly 5 components, the extractor returns the single
string `""` rather than a pair; unpacking it in `__init__` raises a caught
ValueError, the verifier stays not ready, and the file's verification is
skipped entirely (no column or row check ever runs), whichever variant was
selected. -/
theorem c2_malformed_filename_skips_file (filename : String)
    (columns : List String) (rows : List Row)
    (h : (pySplitUU filename).length ≠ 5) :
    deriveStateCountyFromFilename filename = DeriveResult.pystr "" ∧
    initVerifier filename =
      Except.error "not enough values to unpack (expected 2, got 0)" ∧
    (∀ v, selectVariant filename = some v →
      mainStep filename columns rows =
        ([Finding.initError "not enough values to unpack (expected 2, got 0)"], none)) := by
  have hd : deriveStateCountyFromFilename filename = DeriveResult.pystr "" := by
    simp [deriveStateCountyFromFilename, h]
  have hi : initVerifier filename =
      Except.error "not enough values to unpack (expected 2, got 0)" := by
    unfold initVerifier
    rw [hd]
  refine ⟨hd, hi, fun v hv => ?_⟩
  unfold mainStep
  rw [hv, hi]

/-- Claim C2 witness. -/
theorem c2_malformed_filename_skips_file_witness :
    initVerifier "20161108__or__general.csv" =
      Except.error "not enough values to unpack (expected 2, got 0)" :=
  (c2_malformed_filename_skips_file "20161108__or__general.csv" [] [] (by decide)).2.1

/-- Claim C3 counterexample.  `PrimaryVerifier`'s body is `pass`, so the
non-precinct primary variant inherits the default party rule; on a row of
a `primary` (non-precinct) file with candidate "Total" and empty party, no
finding whatsoever is emitted, refuting the claim for the PrimaryFile
variant. -/
theorem c3_primary_counterexample :
    selectVariant "20160517__or__primary__baker.csv" = some Variant.primaryVerifier ∧
    verifyParty Variant.primaryVerifier
      ⟨"Baker", "1", "President", "", "", "Total", "100"⟩ = [] ∧
    verifyRow Variant.primaryVerifier ⟨"or", "Baker"⟩
      ⟨"Baker", "1", "President", "", "", "Total", "100"⟩ = ([], none) := by
  decide

/-- Claim C3, amended.  Only `PrimaryPrecinctFile` overrides the party
rule: there an empty party emits the party finding on every row, even for
a recognized pseudocandidate.  `PrimaryFile` behaves exactly like the
default (`GeneralFile`) rule, which exempts pseudocandidate rows. -/
theorem c3_party_override_only_precinct (row : Row) :
    (row.party = "" →
      verifyParty Variant.primaryPrecinctVerifier row = [Finding.primaryPartyMissing row]) ∧
    verifyParty Variant.primaryVerifier row = verifyParty Variant.generalVerifier row ∧
    (row.candidate ∈ pseudocandidates → verifyParty Variant.primaryVerifier row = []) := by
  refine ⟨fun h => ?_, rfl, fun h => ?_⟩
  · simp [verifyParty, h]
  · simp [verifyParty, h]

/-- Claim C3 witness. -/
theorem c3_party_override_only_precinct_witness :
    verifyParty Variant.primaryPrecinctVerifier
      ⟨"Baker", "1", "President", "", "", "Total", "100"⟩ =
      [Finding.primaryPartyMissing ⟨"Baker", "1", "President", "", "", "Total", "100"⟩] :=
  (c3_party_override_only_precinct ⟨"Baker", "1", "President", "", "", "Total", "100"⟩).1 rfl

/-- Claim C4 counterexample.  For a filename matching none of the dispatch
rules, `__new__` falls through and returns Python `None`, `__init__` never
runs, and `main`'s `verifier.ready` raises an uncaught AttributeError:
the file is not skipped as a silent no-op — the run aborts with an
error. -/
theorem c4_no_match_counterexample :
    selectVariant "results.csv" = none ∧
    mainStep "results.csv"
      ["county", "precinct", "office", "district", "party", "candidate", "votes"] [] =
      ([], some PyExc.attributeError) := by decide

/-- Claim C4, amended.  The Variant Selector does perform the ordered,
case-sensitive, first-match substring dispatch the claim describes and
returns at most one variant; but when no rule matches it yields no object
at all (`__new__` returns None), and the main loop's attribute access on
it raises an uncaught AttributeError instead of silently skipping the
file. -/
theorem c4_variant_selection (filename : String) (columns : List String) (rows : List Row) :
    (substrIn "general" filename = true →
      selectVariant filename =
        some (if substrIn "precinct" filename then Variant.generalPrecinctVerifier
              else Variant.generalVerifier)) ∧
    (substrIn "general" filename = false → substrIn "primary" filename = true →
      selectVariant filename =
        some (if substrIn "precinct" filename then Variant.primaryPrecinctVerifier
              else Variant.primaryVerifier)) ∧
    (substrIn "general" filename = false → substrIn "primary" filename = false →
      substrIn "special" filename = true → substrIn "precinct" filename = true →
      selectVariant filename = some Variant.specialPrecinctVerifier) ∧
    (substrIn "general" filename = false → substrIn "primary" filename = false →
      (substrIn "special" filename = false ∨ substrIn "precinct" filename = false) →
      selectVariant filename = none) ∧
    (selectVariant filename = none →
      mainStep filename columns rows = ([], some PyExc.attributeError)) := by
  refine ⟨fun hg => ?_, fun hg hp => ?_, fun hg hp hs hpr => ?_,
    fun hg hp hsp => ?_, fun hnone => ?_⟩
  · by_cases hpr : substrIn "precinct" filename <;> simp [selectVariant, hg, hpr]
  · by_cases hpr : substrIn "precinct" filename <;> simp [selectVariant, hg, hp, hpr]
  · simp [selectVariant, hg, hp, hs, hpr]
  · rcases hsp with h | h <;> simp [selectVariant, hg, hp, h]
  · unfold mainStep
    rw [hnone]

/-- Claim C4 witness. -/
theorem c4_variant_selection_witness :
    selectVariant "20161108__or__general__baker__precinct.csv" =
      some Variant.generalPrecinctVerifier := by
  have h := (c4_variant_selection "20161108__or__general__baker__precinct.csv" [] []).1
    (by decide)
  simpa using h

/-- Claim C5.  The candidate check is silent on the four exact reserved
literals; otherwise it emits exactly one misspelled-pseudocandidate
finding, precisely when the normalized candidate equals a normalized
reserved token or shares a common contiguous substring longer than 4
characters with one of them. -/
theorem c5_candidate_check (row : Row) :
    (row.candidate ∈ pseudocandidates → verifyCandidate row = []) ∧
    (row.candidate ∉ pseudocandidates →
      ((verifyCandidate row = [Finding.misspelledPseudocandidate row.candidate row]) ↔
        (normalizeCandidate row.candidate ∈ normalizedPseudocandidates ∨
          ∃ npc ∈ normalizedPseudocandidates,
            4 < lcsubLen (normalizeCandidate row.candidate).data npc.data)) ∧
      (verifyCandidate row = [] ∨
        verifyCandidate row = [Finding.misspelledPseudocandidate row.candidate row])) := by
  constructor
  · intro h; simp [verifyCandidate, h]
  · intro h
    by_cases hn : normalizeCandidate row.candidate ∈ normalizedPseudocandidates
    · have hval : verifyCandidate row =
          [Finding.misspelledPseudocandidate row.candidate row] := by
        simp [verifyCandidate, h, hn]
      exact ⟨by rw [hval]; exact ⟨fun _ => Or.inl hn, fun _ => rfl⟩, Or.inr hval⟩
    · rcases hfind : normalizedPseudocandidates.find?
          (fun npc => decide (4 < lcsubLen (normalizeCandidate row.candidate).data npc.data))
          with _ | npc
      · have hval : verifyCandidate row = [] := by
          simp [verifyCandidate, h, hn, hfind]
        have hnofuzz : ¬ ∃ npc ∈ normalizedPseudocandidates,
            4 < lcsubLen (normalizeCandidate row.candidate).data npc.data := by
          rintro ⟨npc, hmem, hlt⟩
          have hnp := List.find?_eq_none.mp hfind npc hmem
          simp at hnp
          omega
        refine ⟨?_, Or.inl hval⟩
        rw [hval]
        constructor
        · intro he; simp at he
        · rintro (hc | hf)
          · exact absurd hc hn
          · exact absurd hf hnofuzz
      · have hval : verifyCandidate row =
            [Finding.misspelledPseudocandidate row.candidate row] := by
          simp [verifyCandidate, h, hn, hfind]
        have hlt := List.find?_some hfind
        simp only [decide_eq_true_eq] at hlt
        exact ⟨by
          rw [hval]
          exact ⟨fun _ => Or.inr ⟨npc, List.mem_of_find?_eq_some hfind, hlt⟩, fun _ => rfl⟩,
          Or.inr hval⟩

/-- Claim C5 witness. -/
theorem c5_candidate_check_witness :
    verifyCandidate ⟨"Baker", "1", "President", "", "", "Total", "7"⟩ = [] :=
  (c5_candidate_check ⟨"Baker", "1", "President", "", "", "Total", "7"⟩).1 (by decide)

/-- Claim C7.  Invalid declared columns only warn (row verification still
runs), while a missing required column reports, aborts the row scan, and
leaves the file with column-level findings only. -/
theorem c7_schema_gate (v : Variant) (ctx : FileContext) (columns : List String)
    (rows : List Row) :
    (invalidColumnsOf columns ≠ [] →
      Finding.invalidColumns (invalidColumnsOf columns) ∈ (parseFileAtPath v ctx columns rows).1) ∧
    (missingColumnsOf columns = [] →
      parseFileAtPath v ctx columns rows =
        ((verifyColumns columns).1 ++ (verifyRows v ctx rows).1, (verifyRows v ctx rows).2)) ∧
    (missingColumnsOf columns ≠ [] →
      parseFileAtPath v ctx columns rows = ((verifyColumns columns).1, none) ∧
      Finding.missingColumns (missingColumnsOf columns) ∈ (parseFileAtPath v ctx columns rows).1 ∧
      ∀ f ∈ (parseFileAtPath v ctx columns rows).1,
        f = Finding.invalidColumns (invalidColumnsOf columns) ∨
        f = Finding.missingColumns (missingColumnsOf columns)) := by
  by_cases hm : missingColumnsOf columns = []
  · have hpf : parseFileAtPath v ctx columns rows =
        ((verifyColumns columns).1 ++ (verifyRows v ctx rows).1, (verifyRows v ctx rows).2) := by
      simp [parseFileAtPath, verifyColumns, hm]
    refine ⟨fun hinv => ?_, fun _ => hpf, fun hm' => absurd hm hm'⟩
    rw [hpf]
    simp [verifyColumns, hm, hinv]
  · have hpf : parseFileAtPath v ctx columns rows = ((verifyColumns columns).1, none) := by
      simp [parseFileAtPath, verifyColumns, hm]
    refine ⟨fun hinv => ?_, fun hm' => absurd hm' hm, fun _ => ⟨hpf, ?_, ?_⟩⟩
    · rw [hpf]; simp [verifyColumns, hm, hinv]
    · rw [hpf]; simp [verifyColumns, hm]
    · rw [hpf]
      intro f hf
      by_cases hinv : invalidColumnsOf columns = [] <;>
        simp [verifyColumns, hm, hinv] at hf <;> tauto

/-- Claim C7 witness: the header missing `district` yields only the
missing-columns finding and no row-level findings, even though a row is
present. -/
theorem c7_schema_gate_witness :
    parseFileAtPath Variant.generalVerifier ⟨"or", "Baker"⟩
      ["county", "precinct", "office", "party", "candidate", "votes"]
      [⟨"Nowhere", "1", "President", "", "", "bogus", "10"⟩] =
      ([Finding.missingColumns ["district"]], none) := by
  have h := ((c7_schema_gate Variant.generalVerifier ⟨"or", "Baker"⟩
    ["county", "precinct", "office", "party", "candidate", "votes"]
    [⟨"Nowhere", "1", "President", "", "", "bogus", "10"⟩]).2.2 (by decide)).1
  rw [h]
  decide

/-- Claim C8.  The district check fires only for the three district
offices: an empty district demands one; a district lowering to "x" passes
only for state code "ms" and is otherwise reported as non-integer; any
remaining value is reported exactly when Python `int` would reject it.
For offices outside the set the check is silent. -/
theorem c8_district_check (ctx : FileContext) (row : Row) :
    (row.office ∈ officesWithDistricts →
      (row.district = "" → verifyDistrict ctx row = [Finding.requiresDistrict row.office row]) ∧
      (pyLower row.district = "x" →
        (ctx.filenameState = "ms" → verifyDistrict ctx row = []) ∧
        (ctx.filenameState ≠ "ms" →
          verifyDistrict ctx row = [Finding.districtNotInteger row])) ∧
      (row.district ≠ "" → pyLower row.district ≠ "x" →
        (verifyInteger row.district = false →
          verifyDistrict ctx row = [Finding.districtNotInteger row]) ∧
        (verifyInteger row.district = true → verifyDistrict ctx row = []))) ∧
    (row.office ∉ officesWithDistricts → verifyDistrict ctx row = []) := by
  constructor
  · intro hoff
    refine ⟨fun hd => ?_, fun hx => ?_, fun hd hx => ?_⟩
    · simp [verifyDistrict, hoff, hd]
    · have hd : ¬ row.district = "" := by
        intro h0
        rw [h0] at hx
        exact absurd hx (by decide)
      exact ⟨fun hms => by simp [verifyDistrict, hoff, hd, hx, hms],
        fun hms => by simp [verifyDistrict, hoff, hd, hx, hms]⟩
    · exact ⟨fun hi => by simp [verifyDistrict, hoff, hd, hx, hi],
        fun hi => by simp [verifyDistrict, hoff, hd, hx, hi]⟩
  · intro hoff
    simp [verifyDistrict, hoff]

/-- Claim C8 witness: district "X" outside Mississippi. -/
theorem c8_district_check_witness :
    verifyDistrict ⟨"or", "Baker"⟩ ⟨"Baker", "1", "State House", "X", "DEM", "A", "5"⟩ =
      [Finding.districtNotInteger ⟨"Baker", "1", "State House", "X", "DEM", "A", "5"⟩] :=
  (((c8_district_check ⟨"or", "Baker"⟩
    ⟨"Baker", "1", "State House", "X", "DEM", "A", "5"⟩).1 (by decide)).2.1
      (by decide)).2 (by decide)

/-- Claim C9.  The county mismatch finding fires exactly when the
title-cased row county differs from the filename county; the title-case
lint fires exactly when the raw value differs from its own title-casing;
when both conditions hold, both findings are emitted on the same row. -/
theorem c9_county_check (ctx : FileContext) (row : Row) :
    (Finding.countyMismatch row ∈ verifyCounty ctx row ↔
      pyTitle row.county ≠ ctx.filenameCounty) ∧
    (Finding.countyTitleCase row ∈ verifyCounty ctx row ↔
      row.county ≠ pyTitle row.county) ∧
    (pyTitle row.county ≠ ctx.filenameCounty → row.county ≠ pyTitle row.county →
      verifyCounty ctx row = [Finding.countyMismatch row, Finding.countyTitleCase row]) := by
  have hval : verifyCounty ctx row =
      (if pyTitle row.county = ctx.filenameCounty then [] else [Finding.countyMismatch row]) ++
        (if row.county = pyTitle row.county then [] else [Finding.countyTitleCase row]) := rfl
  rw [hval]
  generalize pyTitle row.county = t
  by_cases h1 : t = ctx.filenameCounty <;> by_cases h2 : row.county = t <;> simp [h1, h2]

/-- Claim C9 witness: a lower-case county in a file for another county
fires both findings. -/
theorem c9_county_check_witness :
    verifyCounty ⟨"or", "Baker"⟩ ⟨"hood river", "1", "President", "", "DEM", "A", "5"⟩ =
      [Finding.countyMismatch ⟨"hood river", "1", "President", "", "DEM", "A", "5"⟩,
       Finding.countyTitleCase ⟨"hood river", "1", "President", "", "DEM", "A", "5"⟩] :=
  (c9_county_check ⟨"or", "Baker"⟩
    ⟨"hood river", "1", "President", "", "DEM", "A", "5"⟩).2.2 (by decide) (by decide)

/-- Claim C10 counterexample.  A row meeting every condition of the claim
(misspelled pseudocandidate "writein", empty party, non-primary-precinct
variant) but with office "Mayor": the office check's `self.self` typo
raises before the candidate and party checks run, so neither finding is
emitted. -/
theorem c10_counterexample :
    ("writein" ∉ pseudocandidates) ∧
    normalizeCandidate "writein" ∈ normalizedPseudocandidates ∧
    verifyRow Variant.generalVerifier ⟨"or", "Baker"⟩
      ⟨"Baker", "1", "Mayor", "", "", "writein", "10"⟩ =
      ([], some PyExc.attributeError) := by decide

/-- Claim C10, amended.  In every non-primary-precinct variant, for every
row whose office is recognized (so the row scan survives the office
check), whose candidate normalizes to a reserved token without being an
exact literal, and whose party is empty, both the misspelled
pseudocandidate finding and the party-missing finding are emitted for
that single row. -/
theorem c10_misspelled_and_party (v : Variant) (ctx : FileContext) (row : Row)
    (hv : v ≠ Variant.primaryPrecinctVerifier)
    (hoff : row.office ∈ validOffices)
    (hc : row.candidate ∉ pseudocandidates)
    (hn : normalizeCandidate row.candidate ∈ normalizedPseudocandidates)
    (hp : row.party = "") :
    Finding.misspelledPseudocandidate row.candidate row ∈ (verifyRow v ctx row).1 ∧
    Finding.partyMissing row ∈ (verifyRow v ctx row).1 := by
  have hofval : verifyOffice row = ([], none) := by simp [verifyOffice, hoff]
  have hcand : verifyCandidate row = [Finding.misspelledPseudocandidate row.candidate row] := by
    simp [verifyCandidate, hc, hn]
  have hparty : verifyParty v row = [Finding.partyMissing row] := by
    cases v
    case primaryPrecinctVerifier => exact absurd rfl hv
    all_goals simp [verifyParty, hc, hp]
  constructor <;> simp [verifyRow, hofval, hcand, hparty]

/-- Claim C10 witness. -/
theorem c10_misspelled_and_party_witness :
    Finding.misspelledPseudocandidate "writein"
        ⟨"Baker", "1", "President", "", "", "writein", "10"⟩ ∈
      (verifyRow Variant.generalVerifier ⟨"or", "Baker"⟩
        ⟨"Baker", "1", "President", "", "", "writein", "10"⟩).1 ∧
    Finding.partyMissing ⟨"Baker", "1", "President", "", "", "writein", "10"⟩ ∈
      (verifyRow Variant.generalVerifier ⟨"or", "Baker"⟩
        ⟨"Baker", "1", "President", "", "", "writein", "10"⟩).1 :=
  c10_misspelled_and_party Variant.generalVerifier ⟨"or", "Baker"⟩
    ⟨"Baker", "1", "President", "", "", "writein", "10"⟩
    (by decide) (by decide) (by decide) (by decide) rfl

/-!
### The fuzzy matcher computes the longest common contiguous substring
-/

theorem commonPrefixLen_cons_self (c : Char) (as bs : List Char) :
    commonPrefixLen (c :: as) (c :: bs) = commonPrefixLen as bs + 1 := by
  simp [commonPrefixLen]

theorem commonPrefixLen_cons_ne {a b : Char} (h : a ≠ b) (as bs : List Char) :
    commonPrefixLen (a :: as) (b :: bs) = 0 := by
  simp [commonPrefixLen, h]

theorem commonPrefixLen_le_left : ∀ (a b : List Char), commonPrefixLen a b ≤ a.length
  | [], _ => Nat.zero_le _
  | _ :: _, [] => Nat.zero_le _
  | a :: as, b :: bs => by
    have ih := commonPrefixLen_le_left as bs
    by_cases h : a = b
    · subst h
      rw [commonPrefixLen_cons_self, List.length_cons]
      omega
    · rw [commonPrefixLen_cons_ne h]
      omega

theorem take_commonPrefixLen_eq : ∀ (a b : List Char),
    a.take (commonPrefixLen a b) = b.take (commonPrefixLen a b)
  | [], b => by simp [commonPrefixLen]
  | _ :: _, [] => by simp [commonPrefixLen]
  | a :: as, b :: bs => by
    by_cases h : a = b
    · subst h
      rw [commonPrefixLen_cons_self, List.take_succ_cons, List.take_succ_cons,
        take_commonPrefixLen_eq as bs]
    · rw [commonPrefixLen_cons_ne h]
      simp

theorem length_le_commonPrefixLen : ∀ (s a b : List Char), s <+: a → s <+: b →
    s.length ≤ commonPrefixLen a b
  | [], _, _, _, _ => Nat.zero_le _
  | c :: s, [], _, ha, _ => by simp at ha
  | _ :: _, _ :: _, [], _, hb => by simp at hb
  | c :: s, a :: as, b :: bs, ha, hb => by
    obtain ⟨rfl, ha'⟩ := List.cons_prefix_cons.mp ha
    obtain ⟨rfl, hb'⟩ := List.cons_prefix_cons.mp hb
    have ih := length_le_commonPrefixLen s as bs ha' hb'
    rw [commonPrefixLen_cons_self, List.length_cons]
    omega

theorem le_foldrMax {l : List Nat} {x : Nat} (hx : x ∈ l) : x ≤ l.foldr max 0 := by
  induction l with
  | nil => cases hx
  | cons a l ih =>
    simp only [List.foldr_cons]
    rcases List.mem_cons.mp hx with rfl | h
    · exact le_max_left _ _
    · exact le_trans (ih h) (le_max_right _ _)

theorem foldrMax_eq_zero_or_mem : ∀ (l : List Nat), l.foldr max 0 = 0 ∨ l.foldr max 0 ∈ l
  | [] => Or.inl rfl
  | a :: l => by
    simp only [List.foldr_cons]
    rcases le_or_lt (l.foldr max 0) a with h | h
    · refine Or.inr ?_
      rw [max_eq_left h]
      exact List.mem_cons_self _ _
    · rw [max_eq_right h.le]
      rcases foldrMax_eq_zero_or_mem l with h0 | hm
      · exact Or.inl h0
      · exact Or.inr (List.mem_cons_of_mem _ hm)

theorem lcsubLen_exists (a b : List Char) :
    ∃ s : List Char, s.length = lcsubLen a b ∧ s <:+: a ∧ s <:+: b := by
  rcases foldrMax_eq_zero_or_mem
      ((a.tails.map (fun ta => b.tails.map (fun tb => commonPrefixLen ta tb))).flatten)
    with h0 | hmem
  · refine ⟨[], ?_, List.nil_infix, List.nil_infix⟩
    show 0 = lcsubLen a b
    exact h0.symm
  · rw [List.mem_flatten] at hmem
    obtain ⟨l, hl, hx⟩ := hmem
    rw [List.mem_map] at hl
    obtain ⟨ta, hta, rfl⟩ := hl
    rw [List.mem_map] at hx
    obtain ⟨tb, htb, hcp⟩ := hx
    refine ⟨ta.take (commonPrefixLen ta tb), ?_, ?_, ?_⟩
    · rw [List.length_take, min_eq_left (commonPrefixLen_le_left ta tb)]
      exact hcp
    · exact List.infix_iff_prefix_suffix.mpr
        ⟨ta, List.take_prefix _ _, (List.mem_tails _ _).mp hta⟩
    · rw [take_commonPrefixLen_eq ta tb]
      exact List.infix_iff_prefix_suffix.mpr
        ⟨tb, List.take_prefix _ _, (List.mem_tails _ _).mp htb⟩

theorem le_lcsubLen {s a b : List Char} (ha : s <:+: a) (hb : s <:+: b) :
    s.length ≤ lcsubLen a b := by
  obtain ⟨ta, hsa, hta⟩ := List.infix_iff_prefix_suffix.mp ha
  obtain ⟨tb, hsb, htb⟩ := List.infix_iff_prefix_suffix.mp hb
  have h1 := length_le_commonPrefixLen s ta tb hsa hsb
  have h2 : commonPrefixLen ta tb ∈
      (a.tails.map (fun ta => b.tails.map (fun tb => commonPrefixLen ta tb))).flatten := by
    rw [List.mem_flatten]
    refine ⟨b.tails.map (fun tb => commonPrefixLen ta tb), ?_, ?_⟩
    · exact List.mem_map_of_mem _ ((List.mem_tails _ _).mpr hta)
    · exact List.mem_map_of_mem _ ((List.mem_tails _ _).mpr htb)
  exact le_trans h1 (le_foldrMax h2)

/-- Claim C6.  The Fuzzy Token Matcher `lcsubLen` returns, for every pair
of character lists, the length of their longest common contiguous
substring: a common contiguous substring of that exact length exists, and
no common contiguous substring is longer.  In particular the normalized
"John Smith" shares no common contiguous substring of length > 4 with any
normalized reserved token, so the candidate check emits nothing for
"John Smith". -/
theorem c6_fuzzy_matcher :
    (∀ a b : List Char,
      (∃ s : List Char, s.length = lcsubLen a b ∧ s <:+: a ∧ s <:+: b) ∧
      ∀ s : List Char, s <:+: a → s <:+: b → s.length ≤ lcsubLen a b) ∧
    (∀ npc ∈ normalizedPseudocandidates,
      lcsubLen (normalizeCandidate "John Smith").data npc.data ≤ 4) ∧
    verifyCandidate ⟨"Baker", "1", "President", "", "DEM", "John Smith", "7"⟩ = [] := by
  refine ⟨fun a b => ⟨lcsubLen_exists a b, fun s hsa hsb => le_lcsubLen hsa hsb⟩, ?_, ?_⟩
  · set_option maxRecDepth 8000 in decide
  · set_option maxRecDepth 8000 in decide

/-- Claim C6 witness: "ote" is a common contiguous substring of
"overvotes" and "undervotes", so the matcher's result is at least 3. -/
theorem c6_fuzzy_matcher_witness :
    ("ote".data).length ≤ lcsubLen "overvotes".data "undervotes".data :=
  (c6_fuzzy_matcher.1 "overvotes".data "undervotes".data).2 "ote".data
    (by decide) (by decide)

end OpenElections
